import Mathlib

/-!
Shallow embedding of the C declaration ("cdecl") core of the repository:
the type/qualifier/storage enumerations and their printers
(`include/pdcpl/cdcl_type_spec.hh`), the declarator data model and renderer
(`include/pdcpl/cdcl_dcln_spec.hh`, `src/pdcpl_bcdp/cdcl_dcln_spec.cc`), and
the parse-session symbol table (`src/pdcpl_bcdp/cdcl_parser_impl.hh`).

C++ functions that can throw are embedded as `Except String` computations;
everything else is a plain function.  `std::ostream` output is modelled as
the final `String` the write calls would produce.
-/

namespace Pdcpl

/-- `enum class cdcl_type` — the unqualified type of a declaration. -/
inductive cdcl_type where
  | invalid   -- for use in default ctors
  | gvoid
  | gchar
  | schar
  | uchar
  | sint
  | uint
  | sshort
  | ushort
  | slong
  | ulong
  | gfloat
  | gdouble
  | gldouble
  | gstruct
  | genum
  | gtype
deriving DecidableEq

/-- `cdcl_type_printer` (cdcl_type_spec.hh:49-89).  Every enumerator hits an
explicit `case` that returns a string; the `default: throw` branch of the C++
switch is reachable only for values outside the enumeration, which have no
counterpart in the closed Lean type, so no constructor maps to `.error`. -/
def cdcl_type_printer : cdcl_type → Except String String
  | .invalid => .ok "[invalid type]"
  | .gvoid => .ok "void"
  | .gchar => .ok "char"
  | .schar => .ok "signed char"
  | .uchar => .ok "unsigned char"
  | .sint => .ok "signed int"
  | .uint => .ok "unsigned int"
  | .sshort => .ok "signed short"
  | .ushort => .ok "unsigned short"
  | .slong => .ok "signed long"
  | .ulong => .ok "unsigned long"
  | .gfloat => .ok "float"
  | .gdouble => .ok "double"
  | .gldouble => .ok "long double"
  | .genum => .ok "enum"
  | .gstruct => .ok "struct"
  | .gtype => .ok "typedef"

/-- `enum class cdcl_qual` — a type cv-qualifier. -/
inductive cdcl_qual where
  | invalid          -- for use in default ctors
  | qnone
  | qconst
  | qvolatile
  | qconst_volatile
deriving DecidableEq

/-- `cdcl_qual_printer` (cdcl_type_spec.hh:107-123). -/
def cdcl_qual_printer : cdcl_qual → Except String String
  | .invalid => .ok "[invalid cv-qualifier]"
  | .qnone => .ok ""
  | .qconst => .ok "const"
  | .qvolatile => .ok "volatile"
  | .qconst_volatile => .ok "const volatile"

/-- `enum class cdcl_storage` — a storage specifier. -/
inductive cdcl_storage where
  | invalid      -- for use in default ctors
  | st_auto
  | st_extrn     -- the source's st_extern; renamed here, same enumerator
  | st_register
  | st_static
deriving DecidableEq

/-- `cdcl_storage_printer` (cdcl_type_spec.hh:141-157). -/
def cdcl_storage_printer : cdcl_storage → Except String String
  | .invalid => .ok "[invalid storage qualifier]"
  | .st_auto => .ok ""
  | .st_extrn => .ok "extern"
  | .st_register => .ok "register"
  | .st_static => .ok "static"

/-- `cdcl_type_spec` — a type together with an identifier for struct, enum or
typedef types (empty for builtin types). -/
structure cdcl_type_spec where
  type : cdcl_type
  iden : String

/-- `cdcl_type_spec::write` (cdcl_type_spec.hh:200-206): the type's printed
form, then a space and the identifier when the identifier is non-empty. -/
def cdcl_type_spec_write (s : cdcl_type_spec) : Except String String := do
  let t ← cdcl_type_printer s.type
  pure (t ++ (if s.iden.length > 0 then " " ++ s.iden else ""))

/-- `cdcl_qtype_spec` — a cv-qualifier together with a type specifier. -/
structure cdcl_qtype_spec where
  qual : cdcl_qual
  spec : cdcl_type_spec

/-- `cdcl_qtype_spec::write` (cdcl_type_spec.hh:275-284): the qualifier's
printed form and a separating space only when the qualifier text is
non-empty, then the type specifier. -/
def cdcl_qtype_spec_write (s : cdcl_qtype_spec) : Except String String := do
  let qual ← cdcl_qual_printer s.qual
  let rest ← cdcl_type_spec_write s.spec
  pure ((if qual.length > 0 then qual ++ " " else "") ++ rest)

/-- `cdcl_dcl_spec` — a storage specifier together with a qualified type. -/
structure cdcl_dcl_spec where
  storage : cdcl_storage
  spec : cdcl_qtype_spec

/-- `cdcl_dcl_spec::write` (cdcl_dcln_spec.hh:105-113): the storage's printed
form and a separating space only when the storage text is non-empty, then the
qualified type specifier. -/
def cdcl_dcl_spec_write (s : cdcl_dcl_spec) : Except String String := do
  let storage ← cdcl_storage_printer s.storage
  let rest ← cdcl_qtype_spec_write s.spec
  pure ((if storage.length > 0 then storage ++ " " else "") ++ rest)

/-- `cdcl_array_spec` — an array size, `0` meaning unsized (`int a[]`). -/
structure cdcl_array_spec where
  size : Nat

/-- `cdcl_array_spec::write` (cdcl_dcln_spec.hh:153-160): `array[N]`, with the
size omitted when zero. -/
def cdcl_array_spec_write (s : cdcl_array_spec) : String :=
  "array[" ++ (if s.size ≠ 0 then toString s.size else "") ++ "]"

/-- `cdcl_ptrs_spec` — one cv-qualifier per pointer in a run of pointers. -/
structure cdcl_ptrs_spec where
  specs : List cdcl_qual

/-- One pointer level of `cdcl_dclr_spec::printer::operator()(const
cdcl_ptrs_spec&)` (cdcl_dcln_spec.hh:545-560): the switch on the pointer's
cv-qualifier.  The `invalid` enumerator falls through to the `default` branch,
which throws. -/
def cdcl_ptr_word : cdcl_qual → Except String String
  | .qnone => .ok "pointer"
  | .qconst => .ok "const pointer"
  | .qvolatile => .ok "volatile pointer"
  | .qconst_volatile => .ok "const volatile pointer"
  | .invalid => .error "invalid pointer specification"

/-- Loop of `cdcl_dclr_spec::printer::operator()(const cdcl_ptrs_spec&)`
(cdcl_dcln_spec.hh:539-564): each pointer prints its qualifier word followed
by ` to`, with a separating space before every element but the first. -/
def cdcl_ptrs_printer_go : Bool → List cdcl_qual → Except String String
  | _, [] => .ok ""
  | first, q :: qs => do
    let w ← cdcl_ptr_word q
    let rest ← cdcl_ptrs_printer_go false qs
    pure ((if first then "" else " ") ++ w ++ " to" ++ rest)

/-- `cdcl_dclr_spec::printer::operator()(const cdcl_ptrs_spec&)`. -/
def cdcl_ptrs_printer (s : cdcl_ptrs_spec) : Except String String :=
  cdcl_ptrs_printer_go true s.specs

mutual

/-- `cdcl_dclr_spec` — the `std::variant` over the three declarator suffix
kinds: array specifier, pointers specifier, function parameters specifier. -/
inductive cdcl_dclr_spec where
  | array : cdcl_array_spec → cdcl_dclr_spec
  | ptrs : cdcl_ptrs_spec → cdcl_dclr_spec
  | params : cdcl_params_spec → cdcl_dclr_spec

/-- `cdcl_params_spec` — an ordered list of function parameter specifiers
plus the variadic flag. -/
inductive cdcl_params_spec where
  | mk : List cdcl_param_spec → Bool → cdcl_params_spec

/-- `cdcl_param_spec` — a qualified type specifier with an optional nested
declarator (held through a shared pointer in the source; the pointer is never
shared, so an optional exclusively-owned subtree is faithful). -/
inductive cdcl_param_spec where
  | mk : cdcl_qtype_spec → Option cdcl_dclr → cdcl_param_spec

/-- `cdcl_dclr` — a declarator: an identifier (empty for abstract
declarators) plus the ordered vector of declarator specifiers. -/
inductive cdcl_dclr where
  | mk : String → List cdcl_dclr_spec → cdcl_dclr

end

/-- The parameter list of a `cdcl_params_spec`. -/
def cdcl_params_spec.specs : cdcl_params_spec → List cdcl_param_spec
  | .mk specs _ => specs

/-- `cdcl_params_spec::variadic()` (cdcl_dcln_spec.hh:430). -/
def cdcl_params_spec.variadic : cdcl_params_spec → Bool
  | .mk _ variadic => variadic

/-- `cdcl_dclr::iden()` (cdcl_dcln_spec.hh:612). -/
def cdcl_dclr.iden : cdcl_dclr → String
  | .mk iden _ => iden

/-- `cdcl_dclr::specs()` (cdcl_dcln_spec.hh:617). -/
def cdcl_dclr.specs : cdcl_dclr → List cdcl_dclr_spec
  | .mk _ specs => specs

mutual

/-- `std::visit(cdcl_dclr_spec::printer{}, spec)` — the per-variant printer
(cdcl_dcln_spec.hh:521-576, cdcl_dcln_spec.cc:60-76). -/
def cdcl_dclr_spec_print : cdcl_dclr_spec → Except String String
  | .array a => .ok (cdcl_array_spec_write a ++ " of")
  | .ptrs p => cdcl_ptrs_printer p
  | .params ps => cdcl_params_print ps

/-- `cdcl_dclr_spec::printer::operator()(const cdcl_params_spec&)`
(cdcl_dcln_spec.cc:60-76): `function (` then comma-joined parameters, then
`, ...` when variadic, then `) returning ` with a trailing space. -/
def cdcl_params_print : cdcl_params_spec → Except String String
  | .mk specs variadic => do
    let body ← cdcl_params_print_list specs
    pure ("function (" ++ body ++ (if variadic then ", ..." else "") ++
      ") returning ")

/-- Loop of `cdcl_dclr_spec::printer::operator()(const cdcl_params_spec&)`:
each parameter is written followed by `, ` unless it is the last one. -/
def cdcl_params_print_list : List cdcl_param_spec → Except String String
  | [] => .ok ""
  | [p] => cdcl_param_spec_write p
  | p :: ps => do
    let s ← cdcl_param_spec_write p
    let rest ← cdcl_params_print_list ps
    pure (s ++ ", " ++ rest)

/-- `cdcl_param_spec::write` (cdcl_dcln_spec.cc:47-55): the nested declarator
(when present) immediately followed by the qualified type specifier, with no
separator between the two. -/
def cdcl_param_spec_write : cdcl_param_spec → Except String String
  | .mk spec dclr => do
    let d ← match dclr with
      | some d => cdcl_dclr_write d
      | none => Except.ok ""
    let s ← cdcl_qtype_spec_write spec
    pure (d ++ s)

/-- `cdcl_dclr::write` (cdcl_dcln_spec.hh:683-699): the identifier and a
colon when the identifier is non-empty (with a separating space only when
there are specifiers), then every declarator specifier in order, separated by
single spaces. -/
def cdcl_dclr_write : cdcl_dclr → Except String String
  | .mk iden specs => do
    let body ← cdcl_dclr_write_specs true specs
    pure ((if iden.length > 0 then
            iden ++ ":" ++ (if specs.length > 0 then " " else "")
          else "") ++ body)

/-- Loop of `cdcl_dclr::write`: visit each specifier, with a separating space
before every element but the first. -/
def cdcl_dclr_write_specs : Bool → List cdcl_dclr_spec → Except String String
  | _, [] => .ok ""
  | first, s :: ss => do
    let w ← cdcl_dclr_spec_print s
    let rest ← cdcl_dclr_write_specs false ss
    pure ((if first then "" else " ") ++ w ++ rest)

end

/-- `cdcl_dcln` — a declaration: declaration specifier plus declarator. -/
structure cdcl_dcln where
  dcl_spec : cdcl_dcl_spec
  dclr : cdcl_dclr

/-- The identifier of a declaration.  `cdcl_parser_impl::insert` reads it as
`dcln.iden()`, which resolves to the declarator's identifier. -/
def cdcl_dcln.iden (d : cdcl_dcln) : String := d.dclr.iden

/-- `cdcl_dcln::write` (cdcl_dcln_spec.hh:933-938): the declarator, a single
space, then the declaration specifier. -/
def cdcl_dcln_write (d : cdcl_dcln) : Except String String := do
  let dclr ← cdcl_dclr_write d.dclr
  let spec ← cdcl_dcl_spec_write d.dcl_spec
  pure (dclr ++ " " ++ spec)

/-- The parse of `int f(int, ...);`: base type signed-int, identifier `f`, a
single parameter-list suffix with one signed-int parameter and the variadic
flag set. -/
def variadic_f_dcln : cdcl_dcln :=
  ⟨⟨.st_auto, ⟨.qnone, ⟨.sint, ""⟩⟩⟩,
   .mk "f" [.params (.mk [.mk ⟨.qnone, ⟨.sint, ""⟩⟩ none] true)]⟩

/-- C1: rendering the declaration parsed from `int *x[3];` — base type
signed-int, identifier `x`, suffix sequence `[array[3], pointer-run of one
unqualified pointer]` — produces exactly
`x: array[3] of pointer to signed int`: the array suffix is spoken before
the pointer. -/
theorem C1_array_binds_tighter_than_pointer :
    cdcl_dcln_write
      ⟨⟨.st_auto, ⟨.qnone, ⟨.sint, ""⟩⟩⟩, .mk "x" [.array ⟨3⟩, .ptrs ⟨[.qnone]⟩]⟩
      = .ok "x: array[3] of pointer to signed int" := rfl

/-- C3 counterexample: the declaration parsed from `int f(int, ...);` does
not render as `f: function (signed int, ...) returning signed int`; the
params printer ends with `) returning ` (trailing space) and `cdcl_dcln::write`
inserts another space before the declaration specifier, so two spaces follow
`returning`. -/
theorem C3_counterexample :
    cdcl_dcln_write variadic_f_dcln
      ≠ .ok "f: function (signed int, ...) returning signed int" := by
  have hval : cdcl_dcln_write variadic_f_dcln
      = .ok "f: function (signed int, ...) returning  signed int" := rfl
  rw [hval]
  simp only [ne_eq, Except.ok.injEq]
  decide

/-- C3 amended: rendering the declaration parsed from `int f(int, ...);`
produces exactly `f: function (signed int, ...) returning  signed int` — the
variadic flag renders as a trailing `, ...` after all parameters, and
`returning` is followed by two spaces (one from the parameters printer, one
from the declaration writer) before the base type.  In general, for any
parameter list the variadic flag inserts `, ...` between the joined
parameters and `) returning `. -/
theorem C3_variadic_rendering :
    cdcl_dcln_write variadic_f_dcln
      = .ok "f: function (signed int, ...) returning  signed int" ∧
    ∀ specs : List cdcl_param_spec,
      cdcl_params_print (.mk specs true)
        = (cdcl_params_print_list specs).map
            (fun body => "function (" ++ body ++ ", ..." ++ ") returning ") := by
  refine ⟨rfl, fun specs => ?_⟩
  cases h : cdcl_params_print_list specs with
  | ok body => simp [cdcl_params_print, h, Except.map]
  | error e => simp [cdcl_params_print, h, Except.map]

/-- C4 counterexample: none of the three printers raises an exception on the
sentinel `invalid` enumerator; each returns a bracketed placeholder string
(`invalid` has its own explicit `case` in every switch, so the throwing
`default` branch is not taken). -/
theorem C4_counterexample :
    ¬(∃ e, cdcl_type_printer .invalid = .error e) ∧
    ¬(∃ e, cdcl_qual_printer .invalid = .error e) ∧
    ¬(∃ e, cdcl_storage_printer .invalid = .error e) := by
  refine ⟨?_, ?_, ?_⟩ <;> rintro ⟨e, h⟩ <;> exact nomatch h

/-- C4 amended: each of the three render functions returns a string without
failing on every enumerated value, including the sentinel `invalid`, which
renders as a bracketed placeholder (`[invalid type]`,
`[invalid cv-qualifier]`, `[invalid storage qualifier]`) rather than raising
an exception; the throw in each switch's `default` branch is unreachable for
enumerated values. -/
theorem C4_printers_total_on_enumerators :
    (∀ t : cdcl_type, ∃ s, cdcl_type_printer t = .ok s) ∧
    (∀ q : cdcl_qual, ∃ s, cdcl_qual_printer q = .ok s) ∧
    (∀ st : cdcl_storage, ∃ s, cdcl_storage_printer st = .ok s) ∧
    cdcl_type_printer .invalid = .ok "[invalid type]" ∧
    cdcl_qual_printer .invalid = .ok "[invalid cv-qualifier]" ∧
    cdcl_storage_printer .invalid = .ok "[invalid storage qualifier]" := by
  refine ⟨fun t => ?_, fun q => ?_, fun st => ?_, rfl, rfl, rfl⟩
  · cases t <;> exact ⟨_, rfl⟩
  · cases q <;> exact ⟨_, rfl⟩
  · cases st <;> exact ⟨_, rfl⟩

/-- C8: for every enumerated value other than the sentinel `invalid`, each
render function returns a string (totality; determinism is inherent since the
embedding is a pure function), and the rendered text for storage class `auto`
and for qualifier `none` is the empty string. -/
theorem C8_render_total_and_auto_none_empty
    (t : cdcl_type) (q : cdcl_qual) (st : cdcl_storage)
    (ht : t ≠ .invalid) (hq : q ≠ .invalid) (hs : st ≠ .invalid) :
    (∃ s, cdcl_type_printer t = .ok s) ∧
    (∃ s, cdcl_qual_printer q = .ok s) ∧
    (∃ s, cdcl_storage_printer st = .ok s) ∧
    cdcl_storage_printer .st_auto = .ok "" ∧
    cdcl_qual_printer .qnone = .ok "" := by
  refine ⟨?_, ?_, ?_, rfl, rfl⟩
  · cases t <;> exact ⟨_, rfl⟩
  · cases q <;> exact ⟨_, rfl⟩
  · cases st <;> exact ⟨_, rfl⟩

/-- C8 witness: the theorem applied at `signed int`, qualifier `none`,
storage `auto`. -/
theorem C8_witness :
    (cdcl_type.sint ≠ cdcl_type.invalid) ∧
    (cdcl_qual.qnone ≠ cdcl_qual.invalid) ∧
    (cdcl_storage.st_auto ≠ cdcl_storage.invalid) ∧
    ((∃ s, cdcl_type_printer .sint = .ok s) ∧
     (∃ s, cdcl_qual_printer .qnone = .ok s) ∧
     (∃ s, cdcl_storage_printer .st_auto = .ok s) ∧
     cdcl_storage_printer .st_auto = .ok "" ∧
     cdcl_qual_printer .qnone = .ok "") :=
  ⟨by decide, by decide, by decide,
   C8_render_total_and_auto_none_empty .sint .qnone .st_auto
     (by decide) (by decide) (by decide)⟩

/-- C10: a parameter with a nested declarator writes the declarator's full
rendering immediately followed by the qualified type's rendering with no
separator in between (an unnamed pointer-to-char parameter renders as
`pointer to` directly concatenated with `char`, i.e. `pointer tochar`); a
parameter with no declarator writes only the qualified type. -/
theorem C10_param_write_concatenation (q : cdcl_qtype_spec) (d : cdcl_dclr) :
    (cdcl_param_spec_write (.mk q (some d)) = do
      let s ← cdcl_dclr_write d
      let t ← cdcl_qtype_spec_write q
      pure (s ++ t)) ∧
    cdcl_param_spec_write (.mk q none) = cdcl_qtype_spec_write q ∧
    cdcl_param_spec_write
        (.mk ⟨.qnone, ⟨.gchar, ""⟩⟩ (some (.mk "" [.ptrs ⟨[.qnone]⟩])))
      = .ok ("pointer to" ++ "char") := by
  refine ⟨rfl, ?_, rfl⟩
  cases hq : cdcl_qtype_spec_write q with
  | ok s =>
    simp only [cdcl_param_spec_write, hq]
    rfl
  | error e =>
    simp only [cdcl_param_spec_write, hq]
    rfl

/-- `cdcl_init_dclr` — a `std::variant<cdcl_dclr>` with a single alternative,
so it always holds a declarator (`holds_alternative<cdcl_dclr>` is always
true for a value-holding variant). -/
structure cdcl_init_dclr where
  dclr : cdcl_dclr

/-- The `yy::cdcl_parser::syntax_error` thrown by `cdcl_parser_impl::insert`:
the parser's current location (an opaque token, modelled as `Nat`) plus the
error message. -/
structure syntax_error where
  loc : Nat
  msg : String

/-- Lookup in the `std::unordered_map<std::string, std::size_t>` identifier
index, modelled as an association list with unique keys. -/
def map_find (m : List (String × Nat)) (k : String) : Option Nat :=
  (m.find? (fun kv => kv.1 == k)).map (fun kv => kv.2)

/-- `operator[]` assignment on the identifier index: replace the value when
the key is present, otherwise add the new entry. -/
def map_assign : List (String × Nat) → String → Nat → List (String × Nat)
  | [], k, v => [(k, v)]
  | kv :: rest, k, v =>
    if kv.1 = k then (k, v) :: rest else kv :: map_assign rest k v

/-- `cdcl_parser_impl` — the parse session state: the parser's last location,
the last error message, the insertion-ordered declarations, and the
identifier-to-index map (cdcl_parser_impl.hh:213-217). -/
structure cdcl_parser_impl where
  location : Nat
  last_error : String
  results : List cdcl_dcln
  result_indicies : List (String × Nat)

/-- `cdcl_parser_impl::insert(const cdcl_dcl_spec&, const cdcl_init_dclr&)`
(cdcl_parser_impl.hh:137-159).  The C++ function throws a `syntax_error` on
failure after setting `last_error_`; the embedding returns the post-call
state paired with the thrown error, `none` meaning normal return.  The
`holds_alternative<cdcl_dclr>` guard cannot fail since the variant has a
single alternative. -/
def cdcl_parser_impl.insert (p : cdcl_parser_impl) (dcl_spec : cdcl_dcl_spec)
    (init_dclr : cdcl_init_dclr) : cdcl_parser_impl × Option syntax_error :=
  let dcln : cdcl_dcln := ⟨dcl_spec, init_dclr.dclr⟩
  let iden := dcln.iden
  if iden.isEmpty then
    let p1 := { p with last_error := "dcln is missing identifier" }
    (p1, some ⟨p1.location, p1.last_error⟩)
  else if (map_find p.result_indicies iden).isSome then
    let p1 := { p with last_error := "identifier " ++ iden ++ " redeclared" }
    (p1, some ⟨p1.location, p1.last_error⟩)
  else
    ({ p with
        results := p.results ++ [dcln],
        result_indicies := map_assign p.result_indicies iden p.results.length },
     none)

/-- `cdcl_parser_impl::insert(const cdcl_dcl_spec&, const cdcl_init_dclrs&)`
(cdcl_parser_impl.hh:167-171): a range-for over the declarators calling the
single insert; a thrown `syntax_error` propagates out of the loop, so
iteration stops at the first failure and earlier effects persist. -/
def cdcl_parser_impl.insert_list (p : cdcl_parser_impl)
    (dcl_spec : cdcl_dcl_spec) :
    List cdcl_init_dclr → cdcl_parser_impl × Option syntax_error
  | [] => (p, none)
  | d :: ds =>
    match p.insert dcl_spec d with
    | (p1, none) => p1.insert_list dcl_spec ds
    | (p1, some e) => (p1, some e)

/-- `cdcl_parser_impl::results_contain` (cdcl_parser_impl.hh:183-186). -/
def cdcl_parser_impl.results_contain (p : cdcl_parser_impl)
    (iden : String) : Bool :=
  (map_find p.result_indicies iden).isSome

/-- `cdcl_parser_impl::result(const std::string&)`
(cdcl_parser_impl.hh:196-199): `results_[result_indicies_.at(iden)]`; `.at`
throws for an absent identifier, modelled as `none`. -/
def cdcl_parser_impl.result_iden (p : cdcl_parser_impl)
    (iden : String) : Option cdcl_dcln :=
  match map_find p.result_indicies iden with
  | none => none
  | some i => p.results.get? i

/-- `cdcl_parser_impl::result(std::size_t)` (cdcl_parser_impl.hh:208-211):
`results_.at(idx)`, which throws when out of range, modelled as `none`. -/
def cdcl_parser_impl.result_idx (p : cdcl_parser_impl)
    (idx : Nat) : Option cdcl_dcln :=
  p.results.get? idx

/-- Looking up the key just assigned in the identifier index finds the
assigned value. -/
theorem map_find_assign_self (m : List (String × Nat)) (k : String) (v : Nat) :
    map_find (map_assign m k v) k = some v := by
  induction m with
  | nil => simp [map_assign, map_find, List.find?]
  | cons kv rest ih =>
    by_cases h : kv.1 = k
    · simp [map_assign, h, map_find, List.find?]
    · simp [map_assign, h, map_find, List.find?] at ih ⊢
      exact ih

/-- The element appended at the back of a list is found at the old length. -/
theorem get_append_singleton {α : Type} (l : List α) (a : α) :
    (l ++ [a]).get? l.length = some a := by
  induction l with
  | nil => rfl
  | cons x xs ih => simp [ih]

/-- A failing or succeeding single insert only ever appends to the ordered
declaration list. -/
theorem insert_results_extend (p : cdcl_parser_impl) (s : cdcl_dcl_spec)
    (d : cdcl_init_dclr) :
    ∃ l, (p.insert s d).1.results = p.results ++ l := by
  simp only [cdcl_parser_impl.insert]
  split
  · exact ⟨[], by simp⟩
  · split
    · exact ⟨[], by simp⟩
    · exact ⟨[⟨s, d.dclr⟩], rfl⟩

/-- A single insert returns normally exactly when the declarator's identifier
is non-empty and not yet in the identifier index. -/
theorem insert_success_iff (p : cdcl_parser_impl) (s : cdcl_dcl_spec)
    (d : cdcl_init_dclr) :
    (p.insert s d).2 = none ↔
      (d.dclr.iden.isEmpty = false ∧
       map_find p.result_indicies d.dclr.iden = none) := by
  simp only [cdcl_parser_impl.insert, cdcl_dcln.iden]
  split
  · next h => simp_all
  · split
    · next h' =>
      simp only [Option.isSome_iff_exists] at h'
      obtain ⟨a, ha⟩ := h'
      simp_all
    · next h' =>
      simp only [Option.isSome_iff_exists, not_exists] at h'
      have : map_find p.result_indicies d.dclr.iden = none := by
        cases hm : map_find p.result_indicies d.dclr.iden with
        | none => rfl
        | some a => exact absurd hm (h' a)
      simp_all

/-- The state after a successful single insert: the declaration is appended
and the identifier index maps its identifier to the old length. -/
theorem insert_success_state (p : cdcl_parser_impl) (s : cdcl_dcl_spec)
    (d : cdcl_init_dclr) (h : (p.insert s d).2 = none) :
    (p.insert s d).1 = { p with
        results := p.results ++ [⟨s, d.dclr⟩],
        result_indicies :=
          map_assign p.result_indicies d.dclr.iden p.results.length } := by
  rw [insert_success_iff] at h
  simp only [cdcl_parser_impl.insert, cdcl_dcln.iden, h.1, h.2]
  rfl

/-- A freshly created parse session: no location progress, no error, no
declarations, empty identifier index. -/
def empty_session : cdcl_parser_impl := ⟨0, "", [], []⟩

/-- A declarator for `int x;`-style input: identifier `x`, no suffixes. -/
def sample_dclr_x : cdcl_init_dclr := ⟨.mk "x" []⟩

/-- A declarator for `int *x;`-style input: identifier `x`, one pointer. -/
def sample_ptr_dclr_x : cdcl_init_dclr := ⟨.mk "x" [.ptrs ⟨[.qnone]⟩]⟩

/-- An abstract declarator: empty identifier, one pointer suffix. -/
def sample_abstract_dclr : cdcl_init_dclr := ⟨.mk "" [.ptrs ⟨[.qnone]⟩]⟩

/-- The declaration specifier of a plain `int` declaration. -/
def sample_spec : cdcl_dcl_spec := ⟨.st_auto, ⟨.qnone, ⟨.sint, ""⟩⟩⟩

/-- The declaration specifier of a `static char` declaration. -/
def sample_spec2 : cdcl_dcl_spec := ⟨.st_static, ⟨.qnone, ⟨.gchar, ""⟩⟩⟩

/-- C2: after a successful insert of a declarator, a second insert of any
declarator with the same identifier fails with the
`identifier <iden> redeclared` syntax error at the session's current
location, and the ordered declaration list is unchanged by the failing
call. -/
theorem C2_reinsert_same_identifier_fails (p : cdcl_parser_impl)
    (s1 s2 : cdcl_dcl_spec) (d d' : cdcl_init_dclr)
    (hsucc : (p.insert s1 d).2 = none)
    (hiden : d'.dclr.iden = d.dclr.iden) :
    ((p.insert s1 d).1.insert s2 d').2
      = some ⟨(p.insert s1 d).1.location,
              "identifier " ++ d'.dclr.iden ++ " redeclared"⟩ ∧
    ((p.insert s1 d).1.insert s2 d').1.results
      = (p.insert s1 d).1.results := by
  have hcond := (insert_success_iff p s1 d).mp hsucc
  rw [insert_success_state p s1 d hsucc]
  simp only [cdcl_parser_impl.insert, cdcl_dcln.iden, hiden, hcond.1,
    map_find_assign_self]
  simp

/-- C2 witness: inserting `x` twice into a fresh session. -/
theorem C2_witness :
    ((empty_session.insert sample_spec sample_dclr_x).2 = none) ∧
    (sample_ptr_dclr_x.dclr.iden = sample_dclr_x.dclr.iden) ∧
    (((empty_session.insert sample_spec sample_dclr_x).1.insert sample_spec2
        sample_ptr_dclr_x).2
      = some ⟨(empty_session.insert sample_spec sample_dclr_x).1.location,
              "identifier " ++ sample_ptr_dclr_x.dclr.iden ++ " redeclared"⟩ ∧
     ((empty_session.insert sample_spec sample_dclr_x).1.insert sample_spec2
        sample_ptr_dclr_x).1.results
      = (empty_session.insert sample_spec sample_dclr_x).1.results) :=
  ⟨rfl, rfl,
   C2_reinsert_same_identifier_fails empty_session sample_spec sample_spec2
     sample_dclr_x sample_ptr_dclr_x rfl rfl⟩

/-- C5: after a successful insert, looking up the inserted identifier returns
a declaration structurally equal to the inserted one; looking up an
identifier the session does not contain fails (the lookup is a `const`
member, so it cannot change the session). -/
theorem C5_lookup_roundtrip (p : cdcl_parser_impl) (s : cdcl_dcl_spec)
    (d : cdcl_init_dclr) (iden : String) :
    ((p.insert s d).2 = none →
      (p.insert s d).1.result_iden d.dclr.iden = some ⟨s, d.dclr⟩) ∧
    (p.results_contain iden = false → p.result_iden iden = none) := by
  constructor
  · intro hsucc
    rw [insert_success_state p s d hsucc]
    simp [cdcl_parser_impl.result_iden, map_find_assign_self,
      get_append_singleton]
  · intro habs
    have hnone : map_find p.result_indicies iden = none := by
      simp only [cdcl_parser_impl.results_contain] at habs
      cases hm : map_find p.result_indicies iden with
      | none => rfl
      | some a => rw [hm] at habs; exact absurd habs (by simp)
    simp [cdcl_parser_impl.result_iden, hnone]

/-- C5 witness: round trip for `x` in a fresh session, and failing lookup of
the absent identifier `y`. -/
theorem C5_witness :
    ((empty_session.insert sample_spec sample_dclr_x).2 = none) ∧
    (empty_session.results_contain "y" = false) ∧
    ((empty_session.insert sample_spec sample_dclr_x).1.result_iden
        sample_dclr_x.dclr.iden
      = some ⟨sample_spec, sample_dclr_x.dclr⟩) ∧
    (empty_session.result_iden "y" = none) :=
  ⟨rfl, rfl,
   (C5_lookup_roundtrip empty_session sample_spec sample_dclr_x "y").1 rfl,
   (C5_lookup_roundtrip empty_session sample_spec sample_dclr_x "y").2 rfl⟩

/-- C6 counterexample: a failing insert with an empty identifier does not
leave every observable session field unchanged — it overwrites
`last_error_` with `dcln is missing identifier` before throwing, so for a
fresh session (whose `last_error()` is empty) the field differs after the
call. -/
theorem C6_counterexample :
    (empty_session.insert sample_spec sample_abstract_dclr).1.last_error
      ≠ empty_session.last_error := by
  decide

/-- C6 amended: inserting a declarator whose identifier is empty always
fails with the `dcln is missing identifier` syntax error at the current
location, and leaves the declaration list, the identifier index, and the
location unchanged — but it does mutate the session's `last_error_` field,
setting it to the error message. -/
theorem C6_empty_identifier_insert_fails (p : cdcl_parser_impl)
    (s : cdcl_dcl_spec) (d : cdcl_init_dclr) (h : d.dclr.iden = "") :
    p.insert s d
      = ({ p with last_error := "dcln is missing identifier" },
         some ⟨p.location, "dcln is missing identifier"⟩) := by
  have he : "".isEmpty = true := rfl
  simp [cdcl_parser_impl.insert, cdcl_dcln.iden, h, he]

/-- C6 witness: the amended theorem at a fresh session and an abstract
declarator. -/
theorem C6_witness :
    (sample_abstract_dclr.dclr.iden = "") ∧
    (empty_session.insert sample_spec sample_abstract_dclr
      = ({ empty_session with last_error := "dcln is missing identifier" },
         some ⟨empty_session.location, "dcln is missing identifier"⟩)) :=
  ⟨rfl,
   C6_empty_identifier_insert_fails empty_session sample_spec
     sample_abstract_dclr rfl⟩

/-- One step of the spec's description of the list insert (§4.5: "applies
`insert` once per declarator, sharing the DeclSpec"): a step after a failure
keeps the failure, otherwise the single insert runs. -/
def insert_each_step (dcl_spec : cdcl_dcl_spec)
    (acc : cdcl_parser_impl × Option syntax_error) (d : cdcl_init_dclr) :
    cdcl_parser_impl × Option syntax_error :=
  match acc with
  | (st, none) => st.insert dcl_spec d
  | (st, some e) => (st, some e)

/-- Modelled from the spec's words: apply `insert` once per declarator in
order, sharing the declaration specifier, stopping effects at the first
failure. -/
def insert_each_spec (p : cdcl_parser_impl) (dcl_spec : cdcl_dcl_spec)
    (ds : List cdcl_init_dclr) : cdcl_parser_impl × Option syntax_error :=
  ds.foldl (insert_each_step dcl_spec) (p, none)

/-- Once an accumulator holds a failure, the remaining spec steps are
no-ops. -/
theorem insert_each_spec_error (dcl_spec : cdcl_dcl_spec)
    (ds : List cdcl_init_dclr) (st : cdcl_parser_impl) (e : syntax_error) :
    ds.foldl (insert_each_step dcl_spec) (st, some e) = (st, some e) := by
  induction ds with
  | nil => rfl
  | cons d ds ih => simpa [insert_each_step] using ih

/-- C7: the list insert is exactly the sequential application of the single
insert to each declarator in order, sharing the declaration specifier; and
no rollback ever happens — the declarations already stored before a failure
remain, the final declaration list always extends the initial one. -/
theorem C7_insert_list_sequential_no_rollback (p : cdcl_parser_impl)
    (s : cdcl_dcl_spec) (ds : List cdcl_init_dclr) :
    p.insert_list s ds = insert_each_spec p s ds ∧
    ∃ l, (p.insert_list s ds).1.results = p.results ++ l := by
  induction ds generalizing p with
  | nil => exact ⟨rfl, [], by simp [cdcl_parser_impl.insert_list]⟩
  | cons d ds ih =>
    rcases hins : p.insert s d with ⟨p1, o⟩
    obtain ⟨l0, hl0⟩ := insert_results_extend p s d
    rw [hins] at hl0
    cases o with
    | none =>
      have hlist : p.insert_list s (d :: ds) = p1.insert_list s ds := by
        simp [cdcl_parser_impl.insert_list, hins]
      have hspec : insert_each_spec p s (d :: ds)
          = insert_each_spec p1 s ds := by
        simp [insert_each_spec, insert_each_step, hins]
      obtain ⟨l1, hl1⟩ := (ih p1).2
      refine ⟨by rw [hlist, hspec, (ih p1).1], l0 ++ l1, ?_⟩
      rw [hlist, hl1, hl0, List.append_assoc]
    | some e =>
      have hlist : p.insert_list s (d :: ds) = (p1, some e) := by
        simp [cdcl_parser_impl.insert_list, hins]
      have hspec : insert_each_spec p s (d :: ds) = (p1, some e) := by
        simp [insert_each_spec, insert_each_step, hins,
          insert_each_spec_error]
      exact ⟨by rw [hlist, hspec], l0, by rw [hlist, hl0]⟩

/-- `cdcl_params_spec() = default` (cdcl_dcln_spec.hh:378-381): the defaulted
default constructor default-initializes the members.  `specs_` is a
`std::vector`, which default-constructs empty, but `bool variadic_` has no
default member initializer (cdcl_dcln_spec.hh:489-492), so default
initialization (e.g. `cdcl_params_spec p;`) leaves it holding an
indeterminate value; the indeterminate memory content is the explicit
parameter `mem`. -/
def cdcl_params_spec_default_init (mem : Bool) : cdcl_params_spec :=
  .mk [] mem

/-- C9 (code bug): the variadic flag of a default-initialized
`cdcl_params_spec` is whatever the uninitialized `bool variadic_` happens to
hold — it equals the indeterminate memory content, not the definite value
`false`; only the parameter vector is reliably empty.  Every non-default
constructor instead defaults the flag to `false`. -/
theorem C9_default_variadic_indeterminate (mem : Bool) :
    (cdcl_params_spec_default_init mem).variadic = mem ∧
    (cdcl_params_spec_default_init mem).specs = [] :=
  ⟨rfl, rfl⟩

end Pdcpl
